import Mathlib

/-!
Shallow embedding of the deterministic core of the analytics-intake
repository (`src/app/intake-flow/agent.py`):

  * `validate_basic_info` — the field validator,
  * `summarize_analytics_request` — the summarization step (its external
    text-generation call is a parameter of the embedding),
  * `save_analytics_request` — the request persister (the clock, the
    filesystem and the write outcome are parameters of the embedding).

Python dictionaries are modelled as insertion-ordered association lists,
JSON-serializable Python values as the inductive `JValue`, exceptions as
`Except String` (carrying `str(e)`), and in-place mutation of the argument
dictionary by returning the updated mapping in the outcome record.
-/

/-- JSON-serializable Python value (str / int / bool / None / list / dict). -/
inductive JValue where
  | str : String → JValue
  | num : Int → JValue
  | bool : Bool → JValue
  | null : JValue
  | arr : List JValue → JValue
  | obj : List (String × JValue) → JValue
deriving Repr

/-- Decidable equality for `JValue` (the automatic derive does not handle
the nested `List` occurrences, so it is written by hand). -/
def JValue.beq : JValue → JValue → Bool
  | .str a, .str b => a = b
  | .num a, .num b => a = b
  | .bool a, .bool b => a = b
  | .null, .null => true
  | .arr a, .arr b => beqList a b
  | .obj a, .obj b => beqObj a b
  | _, _ => false
where
  beqList : List JValue → List JValue → Bool
    | [], [] => true
    | x :: xs, y :: ys => x.beq y && beqList xs ys
    | _, _ => false
  beqObj : List (String × JValue) → List (String × JValue) → Bool
    | [], [] => true
    | (k, v) :: xs, (k', v') :: ys => k = k' && v.beq v' && beqObj xs ys
    | _, _ => false

mutual
theorem JValue.beq_iff : ∀ a b : JValue, a.beq b = true ↔ a = b
  | .str a, .str b => by simp [JValue.beq]
  | .num a, .num b => by simp [JValue.beq]
  | .bool a, .bool b => by simp [JValue.beq]
  | .null, .null => by simp [JValue.beq]
  | .arr a, .arr b => by
      simp only [JValue.beq, JValue.arr.injEq]
      exact JValue.beqList_iff a b
  | .obj a, .obj b => by
      simp only [JValue.beq, JValue.obj.injEq]
      exact JValue.beqObj_iff a b
  | .str _, .num _ | .str _, .bool _ | .str _, .null | .str _, .arr _ | .str _, .obj _
  | .num _, .str _ | .num _, .bool _ | .num _, .null | .num _, .arr _ | .num _, .obj _
  | .bool _, .str _ | .bool _, .num _ | .bool _, .null | .bool _, .arr _ | .bool _, .obj _
  | .null, .str _ | .null, .num _ | .null, .bool _ | .null, .arr _ | .null, .obj _
  | .arr _, .str _ | .arr _, .num _ | .arr _, .bool _ | .arr _, .null | .arr _, .obj _
  | .obj _, .str _ | .obj _, .num _ | .obj _, .bool _ | .obj _, .null | .obj _, .arr _ => by
      simp [JValue.beq]

theorem JValue.beqList_iff : ∀ a b : List JValue, JValue.beq.beqList a b = true ↔ a = b
  | [], [] => by simp [JValue.beq.beqList]
  | x :: xs, y :: ys => by
      simp only [JValue.beq.beqList, Bool.and_eq_true, List.cons.injEq]
      exact and_congr (JValue.beq_iff x y) (JValue.beqList_iff xs ys)
  | [], _ :: _ => by simp [JValue.beq.beqList]
  | _ :: _, [] => by simp [JValue.beq.beqList]

theorem JValue.beqObj_iff : ∀ a b : List (String × JValue), JValue.beq.beqObj a b = true ↔ a = b
  | [], [] => by simp [JValue.beq.beqObj]
  | (k, v) :: xs, (k', v') :: ys => by
      simp only [JValue.beq.beqObj, Bool.and_eq_true, List.cons.injEq, Prod.mk.injEq,
        decide_eq_true_eq, and_assoc]
      exact and_congr_right fun _ =>
        and_congr (JValue.beq_iff v v') (JValue.beqObj_iff xs ys)
  | [], _ :: _ => by simp [JValue.beq.beqObj]
  | _ :: _, [] => by simp [JValue.beq.beqObj]
end

instance : DecidableEq JValue := fun a b =>
  decidable_of_iff (JValue.beq a b = true) (JValue.beq_iff a b)

deriving instance DecidableEq for Except

/-! ## Python dictionary operations (insertion-ordered association lists)

A Python dict (keys unique) is modelled as an insertion-ordered
association list; assignment replaces the value at the first occurrence of
the key, keeping its position, or appends a new entry at the end. -/

/-- `d[k] = v` on an association list. -/
def assocSet {α : Type} : List (String × α) → String → α → List (String × α)
  | [], k, v => [(k, v)]
  | p :: d, k, v => if p.1 = k then (k, v) :: d else p :: assocSet d k v

/-- `d.get(k)` on an association list, `none` when the key is absent. -/
def assocGet {α : Type} : List (String × α) → String → Option α
  | [], _ => none
  | p :: d, k => if p.1 = k then some p.2 else assocGet d k

/-- A Python dict with string keys. -/
abbrev Dict := List (String × JValue)

/-- `d[k] = v`. -/
def dictSet (d : Dict) (k : String) (v : JValue) : Dict := assocSet d k v

/-- `d.get(k)` returning `none` when the key is absent. -/
def dictGet (d : Dict) (k : String) : Option JValue := assocGet d k

/-- `d.get(k, default)`. -/
def dictGetD (d : Dict) (k : String) (default : JValue) : JValue :=
  (dictGet d k).getD default

/-! ## Python string trimming (`str.strip()`) -/

/-- Characters stripped by Python `str.strip()` (`Py_UNICODE_ISSPACE`). -/
def isPyWhitespace (c : Char) : Bool :=
  c.val = 0x09 || c.val = 0x0A || c.val = 0x0B || c.val = 0x0C || c.val = 0x0D ||
  c.val = 0x1C || c.val = 0x1D || c.val = 0x1E || c.val = 0x1F ||
  c.val = 0x20 || c.val = 0x85 || c.val = 0xA0 || c.val = 0x1680 ||
  (0x2000 ≤ c.val && c.val ≤ 0x200A) ||
  c.val = 0x2028 || c.val = 0x2029 || c.val = 0x202F || c.val = 0x205F || c.val = 0x3000

/-- Python `s.strip()`: remove leading and trailing whitespace. -/
def pyStrip (s : String) : String :=
  String.mk (((s.data.dropWhile isPyWhitespace).reverse.dropWhile isPyWhitespace).reverse)

/-! ## Clock values and their Python renderings -/

/-- A reading of `datetime.datetime.now()`: local calendar time with
microsecond resolution. -/
structure DateTime where
  year : Nat
  month : Nat
  day : Nat
  hour : Nat
  minute : Nat
  second : Nat
  micro : Nat
deriving DecidableEq, Repr

/-- Zero-pad a number to two digits. -/
def pad2 (n : Nat) : String :=
  if n < 10 then "0" ++ toString n else toString n

/-- Zero-pad a number to four digits. -/
def pad4 (n : Nat) : String :=
  if n < 10 then "000" ++ toString n
  else if n < 100 then "00" ++ toString n
  else if n < 1000 then "0" ++ toString n
  else toString n

/-- Zero-pad a number to six digits. -/
def pad6 (n : Nat) : String :=
  if n < 10 then "00000" ++ toString n
  else if n < 100 then "0000" ++ toString n
  else if n < 1000 then "000" ++ toString n
  else if n < 10000 then "00" ++ toString n
  else if n < 100000 then "0" ++ toString n
  else toString n

/-- Python `t.strftime("%Y%m%d_%H%M%S")`: one-second resolution, the
microsecond field is dropped. -/
def DateTime.strftimeCompact (t : DateTime) : String :=
  pad4 t.year ++ pad2 t.month ++ pad2 t.day ++ "_" ++
  pad2 t.hour ++ pad2 t.minute ++ pad2 t.second

/-- Python `t.isoformat()`: ISO-8601, with a `.ffffff` microsecond suffix
exactly when the microsecond field is nonzero. -/
def DateTime.isoformat (t : DateTime) : String :=
  pad4 t.year ++ "-" ++ pad2 t.month ++ "-" ++ pad2 t.day ++ "T" ++
  pad2 t.hour ++ ":" ++ pad2 t.minute ++ ":" ++ pad2 t.second ++
  (if t.micro = 0 then "" else "." ++ pad6 t.micro)

/-- Linearization of a clock reading, for comparing two readings. -/
def DateTime.key (t : DateTime) : Nat :=
  ((((t.year * 13 + t.month) * 32 + t.day) * 24 + t.hour) * 60 + t.minute) * 60 * 1000000
    + t.second * 1000000 + t.micro

/-- `t ≤ t'` as clock readings. -/
def DateTime.le (t t' : DateTime) : Prop := t.key ≤ t'.key

instance : DecidablePred fun p : DateTime × DateTime => p.1.le p.2 := fun p =>
  inferInstanceAs (Decidable (p.1.key ≤ p.2.key))

instance (t t' : DateTime) : Decidable (t.le t') :=
  inferInstanceAs (Decidable (t.key ≤ t'.key))

/-! ## Python `str()` / `repr()` renderings of values

Used by the f-string that builds the short summary in
`save_analytics_request` (`f"Request type: {...}, Requester: {...}"`).
Inside containers Python renders elements with `repr`; string escaping in
`repr` is modelled for the backslash and the quote character. -/

/-- Python `repr` of a `str`: single-quoted, escaping `\` and `'`. -/
def pyReprStr (s : String) : String :=
  "'" ++ String.join (s.data.map fun c =>
    if c = '\\' then "\\\\" else if c = '\'' then "\\'" else String.mk [c]) ++ "'"

mutual
/-- Python `repr(v)` for a JSON-like value. -/
def pyReprv : JValue → String
  | .str s => pyReprStr s
  | .num n => toString n
  | .bool b => if b then "True" else "False"
  | .null => "None"
  | .arr xs => "[" ++ pyReprList xs ++ "]"
  | .obj kvs => "\x7b" ++ pyReprObj kvs ++ "\x7d"

/-- Comma-separated `repr`s of list elements. -/
def pyReprList : List JValue → String
  | [] => ""
  | [x] => pyReprv x
  | x :: y :: xs => pyReprv x ++ ", " ++ pyReprList (y :: xs)

/-- Comma-separated `repr(k): repr(v)` entries of a dict. -/
def pyReprObj : List (String × JValue) → String
  | [] => ""
  | [(k, v)] => pyReprStr k ++ ": " ++ pyReprv v
  | (k, v) :: p :: kvs => pyReprStr k ++ ": " ++ pyReprv v ++ ", " ++ pyReprObj (p :: kvs)
end

/-- Python `str(v)` (what an f-string interpolation produces). -/
def pyStr : JValue → String
  | .str s => s
  | v => pyReprv v

/-- Python type name of a value, as it appears in an `AttributeError`. -/
def pyTypeName : JValue → String
  | .str _ => "str"
  | .num _ => "int"
  | .bool _ => "bool"
  | .null => "NoneType"
  | .arr _ => "list"
  | .obj _ => "dict"

/-! ## The field validator (`validate_basic_info`, agent.py lines 144-187) -/

/-- The `data` dict returned on successful validation. -/
structure BasicInfo where
  name : String
  role : String
  department : String
  timeline : String
  collected_at : String
deriving DecidableEq, Repr

/-- The dict returned by `validate_basic_info`: either
`\x7b"valid": False, "errors": [...]\x7d` or `\x7b"valid": True, "data": \x7b...\x7d\x7d`. -/
inductive ValidationResult where
  | invalid (errors : List String)
  | valid (data : BasicInfo)
deriving DecidableEq, Repr

/-- `validate_basic_info(name, role, department, timeline)`. The reading of
`datetime.datetime.now()` taken on the success path is the parameter `now`. -/
def validate_basic_info (now : DateTime) (name role department timeline : String) :
    ValidationResult :=
  let errors : List String :=
    (if name = "" || (pyStrip name).length < 2
      then ["Name must be at least 2 characters long"] else []) ++
    (if role = "" || (pyStrip role).length < 2
      then ["Role must be specified"] else []) ++
    (if department = "" || (pyStrip department).length < 2
      then ["Department must be specified"] else []) ++
    (if timeline = "" || (pyStrip timeline).length < 3
      then ["Timeline must be specified"] else [])
  if errors = [] then
    .valid ⟨pyStrip name, pyStrip role, pyStrip department, pyStrip timeline, now.isoformat⟩
  else
    .invalid errors

/-! ## The summarization step (`summarize_analytics_request`, lines 61-97)

The external text-generation call (`prompt_call`) is modelled by its
outcome `gen : Except String String`: `.ok text` when the call returns
`text`, `.error e` when it raises an exception with `str(e) = e`. -/

set_option linter.unusedVariables false in
/-- `summarize_analytics_request(request_data)`: returns the generated
summary string verbatim, or — when the call raised — the error dict built
by its own `except` handler. It never raises. (`request_data` only feeds
the prompt text, whose effect is absorbed into `gen`.) -/
def summarize_analytics_request (gen : Except String String) (request_data : Dict) : JValue :=
  match gen with
  | .ok text => .str text
  | .error e => .obj [("status", .str "error"),
                      ("message", .str ("Failed to generate summary: " ++ e))]

/-! ## The request persister (`save_analytics_request`, lines 100-141) -/

/-- One file written by `open(filename, 'w', encoding='utf-8')` followed by
`json.dump(request_data, f, indent=2, ensure_ascii=False)`: the dumped
value together with the serialization options used. -/
structure FileWrite where
  value : JValue
  indent : Nat
  ensure_ascii : Bool
  encoding : String
  mode : String
deriving DecidableEq, Repr

/-- The filesystem: file names mapped to their last write. -/
abbrev Fs := List (String × FileWrite)

/-- Writing with mode `'w'` (create-or-truncate): an existing file is
replaced entirely, a new one is created. -/
def fsWrite (fs : Fs) (fname : String) (w : FileWrite) : Fs := assocSet fs fname w

/-- Reading a file back. -/
def fsRead (fs : Fs) (fname : String) : Option FileWrite := assocGet fs fname

/-- The filename generated at lines 112-113:
`f"analytics_request_{now.strftime('%Y%m%d_%H%M%S')}.json"`. -/
def persistFilename (nowName : DateTime) : String :=
  "analytics_request_" ++ nowName.strftimeCompact ++ ".json"

/-- The `metadata` dict attached at lines 121-124. -/
def metaObj (nowMeta : DateTime) : JValue :=
  .obj [("created_at", .str nowMeta.isoformat), ("status", .str "pending_review")]

/-- The state of `request_data` after lines 117-124: the generated summary
stored under `request_summary`, then the metadata dict stored under
`metadata`. This is the value dumped to the file, and also what the
caller's mapping holds after the call. -/
def persistedRecord (gen : Except String String) (nowMeta : DateTime) (rd : Dict) : Dict :=
  dictSet (dictSet rd "request_summary" (summarize_analytics_request gen rd))
    "metadata" (metaObj nowMeta)

/-- The f-string
`f"Request type: {...}, Requester: {...}"` of the success return: it raises
an `AttributeError` when `request_data['basic_info']` exists but is not a
dict (`.get` is called on it), and succeeds otherwise. -/
def fstringShortSummary (rd : Dict) : Except String String :=
  let rt := pyStr (dictGetD rd "request_type" (.str "unknown"))
  match dictGetD rd "basic_info" (.obj []) with
  | .obj kvs =>
      .ok ("Request type: " ++ rt ++ ", Requester: " ++
        pyStr (dictGetD kvs "name" (.str "unknown")))
  | v => .error ("'" ++ pyTypeName v ++ "' object has no attribute 'get'")

/-- What a call of `save_analytics_request` leaves behind: the returned
dict, the filesystem, and the caller's `request_data` mapping (the Python
function mutates its argument in place; the mutation is modelled by this
field). -/
structure PersistOutcome where
  result : Dict
  fs : Fs
  request_data : Dict
deriving DecidableEq, Repr

/-- `save_analytics_request(request_data)`.
Parameters of the embedding: `gen` is the outcome of the external
text-generation call, `write` the outcome of opening and writing the file
(`.error e` models an exception with `str(e) = e`, e.g. permission
denied), `nowName` and `nowMeta` the two successive readings of
`datetime.datetime.now()` (line 112 for the filename, line 122 for the
metadata), `fs` the filesystem before the call. -/
def save_analytics_request (gen : Except String String) (write : Except String Unit)
    (nowName nowMeta : DateTime) (fs : Fs) (request_data : Dict) : PersistOutcome :=
  let filename := persistFilename nowName
  let rd2 := persistedRecord gen nowMeta request_data
  match write with
  | .error e =>
      { result := [("status", .str "error"),
                   ("message", .str ("Failed to save request: " ++ e))],
        fs := fs, request_data := rd2 }
  | .ok _ =>
      let fs' := fsWrite fs filename
        { value := .obj rd2, indent := 2, ensure_ascii := false,
          encoding := "utf-8", mode := "w" }
      match fstringShortSummary rd2 with
      | .ok s =>
          { result := [("status", .str "success"),
                       ("message", .str ("Analytics request saved successfully to " ++ filename)),
                       ("file_path", .str filename),
                       ("summary", .str s)],
            fs := fs', request_data := rd2 }
      | .error e =>
          { result := [("status", .str "error"),
                       ("message", .str ("Failed to save request: " ++ e))],
            fs := fs', request_data := rd2 }

/-! ## Claim-side predicates (worded as in the specification) -/

/-- A field violates its rule when it is empty/whitespace-only or, after
trimming, shorter than its per-field minimum (spec §4.1). -/
def fieldBad (s : String) (m : Nat) : Bool :=
  s.data.all isPyWhitespace || decide ((pyStrip s).length < m)

/-- The complete error set in field order (spec §4.1): exactly one message
per violated field, in the order name, role, department, timeline. -/
def expectedErrors (n r d t : String) : List String :=
  (if fieldBad n 2 then ["Name must be at least 2 characters long"] else []) ++
  (if fieldBad r 2 then ["Role must be specified"] else []) ++
  (if fieldBad d 2 then ["Department must be specified"] else []) ++
  (if fieldBad t 3 then ["Timeline must be specified"] else [])

/-- Two clock readings falling within the same wall-clock second. -/
def DateTime.sameSecond (t u : DateTime) : Prop :=
  t.year = u.year ∧ t.month = u.month ∧ t.day = u.day ∧
  t.hour = u.hour ∧ t.minute = u.minute ∧ t.second = u.second

instance (t u : DateTime) : Decidable (t.sameSecond u) :=
  inferInstanceAs (Decidable (t.year = u.year ∧ t.month = u.month ∧ t.day = u.day ∧
    t.hour = u.hour ∧ t.minute = u.minute ∧ t.second = u.second))

/-! ## Helper lemmas -/

theorem pyStrip_of_all_ws (s : String) (h : s.data.all isPyWhitespace = true) :
    pyStrip s = "" := by
  unfold pyStrip
  have h1 : s.data.dropWhile isPyWhitespace = [] := by
    rw [List.dropWhile_eq_nil_iff]
    intro x hx
    exact List.all_eq_true.mp h x hx
  rw [h1]
  rfl

theorem fieldBad_eq (s : String) (m : Nat) (hm : 0 < m) :
    fieldBad s m = (decide (s = "") || decide ((pyStrip s).length < m)) := by
  unfold fieldBad
  cases hws : s.data.all isPyWhitespace with
  | false =>
    cases he : decide (s = "") with
    | false => simp
    | true =>
      have hse : s = "" := of_decide_eq_true he
      subst hse
      exact absurd hws (by decide)
  | true =>
    have h0 : pyStrip s = "" := pyStrip_of_all_ws s hws
    have hlt : (pyStrip s).length < m := by rw [h0]; simpa using hm
    simp [hlt]

theorem assocGet_assocSet_self {α : Type} (d : List (String × α)) (k : String) (v : α) :
    assocGet (assocSet d k v) k = some v := by
  induction d with
  | nil => simp [assocSet, assocGet]
  | cons p d ih =>
    by_cases h : p.1 = k
    · simp [assocSet, assocGet, h]
    · simp [assocSet, assocGet, h, ih]

theorem assocGet_assocSet_ne {α : Type} (d : List (String × α)) (k k' : String) (v : α)
    (h : k' ≠ k) : assocGet (assocSet d k v) k' = assocGet d k' := by
  induction d with
  | nil => simp [assocSet, assocGet, Ne.symm h]
  | cons p d ih =>
    by_cases hp : p.1 = k
    · simp [assocSet, assocGet, hp, Ne.symm h]
    · by_cases hp' : p.1 = k'
      · simp [assocSet, assocGet, hp, hp', h]
      · simp [assocSet, assocGet, hp, hp', ih]

theorem dictGet_dictSet_self (d : Dict) (k : String) (v : JValue) :
    dictGet (dictSet d k v) k = some v := assocGet_assocSet_self d k v

theorem dictGet_dictSet_ne (d : Dict) (k k' : String) (v : JValue) (h : k' ≠ k) :
    dictGet (dictSet d k v) k' = dictGet d k' := assocGet_assocSet_ne d k k' v h

theorem fsRead_fsWrite_self (fs : Fs) (f : String) (w : FileWrite) :
    fsRead (fsWrite fs f w) f = some w := assocGet_assocSet_self fs f w

theorem persistedRecord_summary (gen : Except String String) (nowMeta : DateTime) (rd : Dict) :
    dictGet (persistedRecord gen nowMeta rd) "request_summary" =
      some (summarize_analytics_request gen rd) := by
  unfold persistedRecord
  rw [dictGet_dictSet_ne _ _ _ _ (by decide)]
  exact dictGet_dictSet_self _ _ _

theorem persistedRecord_metadata (gen : Except String String) (nowMeta : DateTime) (rd : Dict) :
    dictGet (persistedRecord gen nowMeta rd) "metadata" = some (metaObj nowMeta) := by
  unfold persistedRecord
  exact dictGet_dictSet_self _ _ _

theorem persistedRecord_get_ne (gen : Except String String) (nowMeta : DateTime) (rd : Dict)
    (k : String) (h1 : k ≠ "request_summary") (h2 : k ≠ "metadata") :
    dictGet (persistedRecord gen nowMeta rd) k = dictGet rd k := by
  unfold persistedRecord
  rw [dictGet_dictSet_ne _ _ _ _ h2, dictGet_dictSet_ne _ _ _ _ h1]

theorem validate_eq (now : DateTime) (n r d t : String) :
    validate_basic_info now n r d t =
      (if expectedErrors n r d t = [] then
        .valid ⟨pyStrip n, pyStrip r, pyStrip d, pyStrip t, now.isoformat⟩
      else .invalid (expectedErrors n r d t)) := by
  unfold validate_basic_info expectedErrors
  rw [fieldBad_eq n 2 (by decide), fieldBad_eq r 2 (by decide),
    fieldBad_eq d 2 (by decide), fieldBad_eq t 3 (by decide)]

theorem expectedErrors_eq_nil_iff (n r d t : String) :
    expectedErrors n r d t = [] ↔
      (fieldBad n 2 || fieldBad r 2 || fieldBad d 2 || fieldBad t 3) = false := by
  cases h1 : fieldBad n 2 <;> cases h2 : fieldBad r 2 <;> cases h3 : fieldBad d 2 <;>
    cases h4 : fieldBad t 3 <;> simp [expectedErrors, h1, h2, h3, h4]

theorem save_ok_fs (gen : Except String String) (nowName nowMeta : DateTime)
    (fs : Fs) (rd : Dict) :
    (save_analytics_request gen (.ok ()) nowName nowMeta fs rd).fs =
      fsWrite fs (persistFilename nowName)
        ⟨.obj (persistedRecord gen nowMeta rd), 2, false, "utf-8", "w"⟩ := by
  unfold save_analytics_request
  cases h : fstringShortSummary (persistedRecord gen nowMeta rd) <;> simp [h]

theorem save_request_data_eq (gen : Except String String) (write : Except String Unit)
    (nowName nowMeta : DateTime) (fs : Fs) (rd : Dict) :
    (save_analytics_request gen write nowName nowMeta fs rd).request_data =
      persistedRecord gen nowMeta rd := by
  unfold save_analytics_request
  cases write with
  | error e => rfl
  | ok u => cases h : fstringShortSummary (persistedRecord gen nowMeta rd) <;> simp [h]

theorem save_ok_result (gen : Except String String) (nowName nowMeta : DateTime)
    (fs : Fs) (rd : Dict) (s : String)
    (hs : fstringShortSummary (persistedRecord gen nowMeta rd) = .ok s) :
    (save_analytics_request gen (.ok ()) nowName nowMeta fs rd).result =
      [("status", .str "success"),
       ("message", .str ("Analytics request saved successfully to " ++ persistFilename nowName)),
       ("file_path", .str (persistFilename nowName)),
       ("summary", .str s)] := by
  unfold save_analytics_request
  simp [hs]

theorem save_write_error_eq (gen : Except String String) (e : String)
    (nowName nowMeta : DateTime) (fs : Fs) (rd : Dict) :
    save_analytics_request gen (.error e) nowName nowMeta fs rd =
      { result := [("status", .str "error"),
                   ("message", .str ("Failed to save request: " ++ e))],
        fs := fs, request_data := persistedRecord gen nowMeta rd } := rfl

theorem strftimeCompact_eq_of_sameSecond (t u : DateTime) (h : t.sameSecond u) :
    t.strftimeCompact = u.strftimeCompact := by
  obtain ⟨h1, h2, h3, h4, h5, h6⟩ := h
  unfold DateTime.strftimeCompact
  rw [h1, h2, h3, h4, h5, h6]

/-! ## Claim theorems: the field validator -/

/-- C1: for every four string inputs, `validate_basic_info` returns
`valid:false` exactly when at least one field is empty/whitespace-only or,
after trimming, shorter than its per-field minimum (name: 2, role: 2,
department: 2, timeline: 3); all four fields are checked without
short-circuiting, the errors list holds exactly one message per violated
field in the fixed order name, role, department, timeline, and
`validate("", "", "", "")` yields `valid:false` with exactly 4 errors. -/
theorem validate_invalid_characterization (now : DateTime) (n r d t : String) :
    ((∃ es, validate_basic_info now n r d t = .invalid es) ↔
      (fieldBad n 2 || fieldBad r 2 || fieldBad d 2 || fieldBad t 3) = true) ∧
    (validate_basic_info now n r d t = .invalid (expectedErrors n r d t) ∨
      (expectedErrors n r d t = [] ∧
        ∃ bi, validate_basic_info now n r d t = .valid bi)) ∧
    validate_basic_info now "" "" "" "" =
      .invalid ["Name must be at least 2 characters long", "Role must be specified",
        "Department must be specified", "Timeline must be specified"] := by
  refine ⟨⟨?_, ?_⟩, ?_, ?_⟩
  · rintro ⟨es, hes⟩
    rw [validate_eq] at hes
    by_cases h : expectedErrors n r d t = []
    · rw [if_pos h] at hes
      exact ValidationResult.noConfusion hes
    · cases hx : (fieldBad n 2 || fieldBad r 2 || fieldBad d 2 || fieldBad t 3) with
      | true => rfl
      | false => exact absurd ((expectedErrors_eq_nil_iff n r d t).mpr hx) h
  · intro hor
    have h : expectedErrors n r d t ≠ [] := by
      intro h0
      rw [expectedErrors_eq_nil_iff] at h0
      rw [h0] at hor
      exact Bool.false_ne_true hor
    exact ⟨expectedErrors n r d t, by rw [validate_eq, if_neg h]⟩
  · by_cases h : expectedErrors n r d t = []
    · exact Or.inr ⟨h, ⟨_, by rw [validate_eq, if_pos h]⟩⟩
    · exact Or.inl (by rw [validate_eq, if_neg h])
  · rw [validate_eq, if_neg (by decide)]
    decide

/-- C6: when all four fields satisfy the minimum-length rule,
`validate_basic_info` returns `valid:true` with exactly the four input
values trimmed plus `collected_at` set to the current time in ISO-8601. -/
theorem validate_success_trims (now : DateTime) (n r d t : String)
    (h : fieldBad n 2 = false ∧ fieldBad r 2 = false ∧ fieldBad d 2 = false ∧
      fieldBad t 3 = false) :
    validate_basic_info now n r d t =
      .valid ⟨pyStrip n, pyStrip r, pyStrip d, pyStrip t, now.isoformat⟩ := by
  obtain ⟨h1, h2, h3, h4⟩ := h
  rw [validate_eq, if_pos]
  rw [expectedErrors_eq_nil_iff]
  simp [h1, h2, h3, h4]

/-- Witness for C6: `validate(" Ann ", "Analyst", "Finance", "next week")`
succeeds with trimmed fields and an ISO-8601 `collected_at`. -/
theorem validate_success_trims_witness :
    validate_basic_info ⟨2026, 10, 12, 9, 30, 5, 0⟩ " Ann " "Analyst" "Finance" "next week" =
      .valid ⟨"Ann", "Analyst", "Finance", "next week", "2026-10-12T09:30:05"⟩ := by
  have h := validate_success_trims ⟨2026, 10, 12, 9, 30, 5, 0⟩ " Ann " "Analyst" "Finance"
    "next week" ⟨by decide, by decide, by decide, by decide⟩
  rw [h]
  decide

/-- C7: `validate_basic_info` is total — every malformed input yields the
structured `valid:false` result, with a nonempty error list containing the
message of every violated rule, never a raised exception (exceptions do
not exist in the embedding's result type). -/
theorem validate_malformed_structured (now : DateTime) (n r d t : String)
    (h : fieldBad n 2 = true ∨ fieldBad r 2 = true ∨ fieldBad d 2 = true ∨
      fieldBad t 3 = true) :
    ∃ es, validate_basic_info now n r d t = .invalid es ∧ es ≠ [] ∧
      (fieldBad n 2 = true → "Name must be at least 2 characters long" ∈ es) ∧
      (fieldBad r 2 = true → "Role must be specified" ∈ es) ∧
      (fieldBad d 2 = true → "Department must be specified" ∈ es) ∧
      (fieldBad t 3 = true → "Timeline must be specified" ∈ es) := by
  have hne : expectedErrors n r d t ≠ [] := by
    intro h0
    rw [expectedErrors_eq_nil_iff] at h0
    rcases h with h | h | h | h <;> simp [h] at h0
  refine ⟨expectedErrors n r d t, by rw [validate_eq, if_neg hne], hne, ?_, ?_, ?_, ?_⟩ <;>
    intro hb <;> simp [expectedErrors, hb]

/-- Witness for C7: `validate("J", "VP", "Sales", "no")` returns a
structured error result citing name and timeline. -/
theorem validate_malformed_structured_witness :
    ∃ es, validate_basic_info ⟨2026, 10, 12, 9, 30, 5, 0⟩ "J" "VP" "Sales" "no" =
        .invalid es ∧ es ≠ [] ∧
      (fieldBad "J" 2 = true → "Name must be at least 2 characters long" ∈ es) ∧
      (fieldBad "VP" 2 = true → "Role must be specified" ∈ es) ∧
      (fieldBad "Sales" 2 = true → "Department must be specified" ∈ es) ∧
      (fieldBad "no" 3 = true → "Timeline must be specified" ∈ es) :=
  validate_malformed_structured ⟨2026, 10, 12, 9, 30, 5, 0⟩ "J" "VP" "Sales" "no"
    (Or.inl (by decide))

/-- C8: two calls of `validate_basic_info` with identical string arguments
agree on the valid flag, the errors and every data field except
`collected_at`; with a non-decreasing clock the two `collected_at`
timestamps are renderings of non-decreasing clock readings. -/
theorem validate_idempotent_mod_timestamp (t1 t2 : DateTime) (h : t1.le t2)
    (n r d t : String) :
    validate_basic_info t1 n r d t = validate_basic_info t2 n r d t ∨
    ∃ b1 b2 : BasicInfo, validate_basic_info t1 n r d t = .valid b1 ∧
      validate_basic_info t2 n r d t = .valid b2 ∧
      b1.name = b2.name ∧ b1.role = b2.role ∧ b1.department = b2.department ∧
      b1.timeline = b2.timeline ∧
      ∃ u1 u2 : DateTime, b1.collected_at = u1.isoformat ∧ b2.collected_at = u2.isoformat ∧
        u1.le u2 := by
  by_cases he : expectedErrors n r d t = []
  · exact Or.inr ⟨⟨pyStrip n, pyStrip r, pyStrip d, pyStrip t, t1.isoformat⟩,
      ⟨pyStrip n, pyStrip r, pyStrip d, pyStrip t, t2.isoformat⟩,
      by rw [validate_eq, if_pos he], by rw [validate_eq, if_pos he],
      rfl, rfl, rfl, rfl, t1, t2, rfl, rfl, h⟩
  · left
    rw [validate_eq t1 n r d t, validate_eq t2 n r d t]
    simp only [if_neg he]

/-- Witness for C8: two calls one second apart on the same valid input. -/
theorem validate_idempotent_mod_timestamp_witness :
    validate_basic_info ⟨2026, 10, 12, 9, 30, 5, 0⟩ "Ann" "Analyst" "Finance" "next week" =
        validate_basic_info ⟨2026, 10, 12, 9, 30, 6, 0⟩ "Ann" "Analyst" "Finance" "next week" ∨
    ∃ b1 b2 : BasicInfo,
      validate_basic_info ⟨2026, 10, 12, 9, 30, 5, 0⟩ "Ann" "Analyst" "Finance" "next week" =
        .valid b1 ∧
      validate_basic_info ⟨2026, 10, 12, 9, 30, 6, 0⟩ "Ann" "Analyst" "Finance" "next week" =
        .valid b2 ∧
      b1.name = b2.name ∧ b1.role = b2.role ∧ b1.department = b2.department ∧
      b1.timeline = b2.timeline ∧
      ∃ u1 u2 : DateTime, b1.collected_at = u1.isoformat ∧ b2.collected_at = u2.isoformat ∧
        u1.le u2 :=
  validate_idempotent_mod_timestamp ⟨2026, 10, 12, 9, 30, 5, 0⟩ ⟨2026, 10, 12, 9, 30, 6, 0⟩
    (by decide) "Ann" "Analyst" "Finance" "next week"

theorem persistedRecord_getD_ne (gen : Except String String) (nowMeta : DateTime) (rd : Dict)
    (k : String) (dv : JValue) (h1 : k ≠ "request_summary") (h2 : k ≠ "metadata") :
    dictGetD (persistedRecord gen nowMeta rd) k dv = dictGetD rd k dv := by
  unfold dictGetD
  rw [persistedRecord_get_ne gen nowMeta rd k h1 h2]

theorem save_fstring_error_result (gen : Except String String) (nowName nowMeta : DateTime)
    (fs : Fs) (rd : Dict) (e : String)
    (hs : fstringShortSummary (persistedRecord gen nowMeta rd) = .error e) :
    (save_analytics_request gen (.ok ()) nowName nowMeta fs rd).result =
      [("status", .str "error"), ("message", .str ("Failed to save request: " ++ e))] := by
  unfold save_analytics_request
  simp [hs]

/-! ## Claim theorems: the request persister -/

/-- C2 counterexample: with input `\x7b"request_summary": "xyz"\x7d` the
persist call succeeds and writes a file, but the file's `request_summary`
no longer holds the supplied value `"xyz"` (it holds the generated
summary), so re-reading the file does not reproduce every key supplied in
the input. -/
theorem save_roundtrip_counterexample :
    fsRead (save_analytics_request (Except.ok "GEN") (Except.ok ())
        ⟨2026, 10, 12, 9, 30, 5, 1⟩ ⟨2026, 10, 12, 9, 30, 5, 2⟩ []
        [("request_summary", JValue.str "xyz")]).fs
      "analytics_request_20261012_093005.json" =
      some ⟨.obj (persistedRecord (Except.ok "GEN") ⟨2026, 10, 12, 9, 30, 5, 2⟩
        [("request_summary", JValue.str "xyz")]), 2, false, "utf-8", "w"⟩ ∧
    ¬ (∀ k v, dictGet [("request_summary", JValue.str "xyz")] k = some v →
        dictGet (persistedRecord (Except.ok "GEN") ⟨2026, 10, 12, 9, 30, 5, 2⟩
          [("request_summary", JValue.str "xyz")]) k = some v) := by
  refine ⟨by decide, fun h => ?_⟩
  have hx := h "request_summary" (JValue.str "xyz") (by decide)
  exact absurd hx (by decide)

/-- C2 (amended): for every input mapping, a successful persist call
writes, at the returned `file_path`, a UTF-8 JSON document with 2-space
indentation and non-ASCII preserved unescaped, using create-or-truncate
semantics; the written record reproduces every supplied key other than
`request_summary` and `metadata` (those two are overwritten), and holds a
`request_summary` key plus a `metadata` key whose `created_at` is the
current time in ISO-8601 and whose `status` is the constant
`"pending_review"`. -/
theorem save_success_roundtrip (gen : Except String String) (nowName nowMeta : DateTime)
    (fs : Fs) (rd : Dict) (s : String)
    (hs : fstringShortSummary (persistedRecord gen nowMeta rd) = .ok s) :
    dictGet (save_analytics_request gen (.ok ()) nowName nowMeta fs rd).result "status" =
      some (.str "success") ∧
    dictGet (save_analytics_request gen (.ok ()) nowName nowMeta fs rd).result "file_path" =
      some (.str (persistFilename nowName)) ∧
    fsRead (save_analytics_request gen (.ok ()) nowName nowMeta fs rd).fs
        (persistFilename nowName) =
      some ⟨.obj (persistedRecord gen nowMeta rd), 2, false, "utf-8", "w"⟩ ∧
    (∀ k v, dictGet rd k = some v → k ≠ "request_summary" → k ≠ "metadata" →
      dictGet (persistedRecord gen nowMeta rd) k = some v) ∧
    dictGet (persistedRecord gen nowMeta rd) "request_summary" =
      some (summarize_analytics_request gen rd) ∧
    dictGet (persistedRecord gen nowMeta rd) "metadata" =
      some (.obj [("created_at", .str nowMeta.isoformat),
                  ("status", .str "pending_review")]) := by
  refine ⟨?_, ?_, ?_, ?_, persistedRecord_summary gen nowMeta rd,
    persistedRecord_metadata gen nowMeta rd⟩
  · rw [save_ok_result gen nowName nowMeta fs rd s hs]
    rfl
  · rw [save_ok_result gen nowName nowMeta fs rd s hs]
    rfl
  · rw [save_ok_fs]
    exact fsRead_fsWrite_self _ _ _
  · intro k v hv h1 h2
    rw [persistedRecord_get_ne gen nowMeta rd k h1 h2]
    exact hv

/-- Witness for the amended C2: a concrete successful persist call whose
file reproduces the supplied `request_type` key. -/
theorem save_success_roundtrip_witness :
    dictGet (save_analytics_request (Except.ok "GEN") (Except.ok ())
        ⟨2026, 10, 12, 9, 30, 5, 1⟩ ⟨2026, 10, 12, 9, 30, 5, 2⟩ []
        [("request_type", JValue.str "reports"),
         ("basic_info", JValue.obj [("name", JValue.str "Ann")])]).result "status" =
      some (JValue.str "success") ∧
    dictGet (persistedRecord (Except.ok "GEN") ⟨2026, 10, 12, 9, 30, 5, 2⟩
        [("request_type", JValue.str "reports"),
         ("basic_info", JValue.obj [("name", JValue.str "Ann")])]) "request_type" =
      some (JValue.str "reports") := by
  have h := save_success_roundtrip (Except.ok "GEN") ⟨2026, 10, 12, 9, 30, 5, 1⟩
    ⟨2026, 10, 12, 9, 30, 5, 2⟩ []
    [("request_type", JValue.str "reports"),
     ("basic_info", JValue.obj [("name", JValue.str "Ann")])]
    "Request type: reports, Requester: Ann" (by decide)
  exact ⟨h.1, h.2.2.2.1 "request_type" (JValue.str "reports") (by decide) (by decide) (by decide)⟩

/-- C3 counterexample: when the external text-generation call raises
(cause `"boom"`) and the file write succeeds, `save_analytics_request`
does not convert the summarization exception into
`\x7bstatus: "error", message: "Failed to save request: boom"\x7d` — it
returns the success result (the exception was caught inside the
summarization step, not at persist's top level). -/
theorem save_summarization_exception_counterexample :
    (save_analytics_request (Except.error "boom") (Except.ok ())
        ⟨2026, 10, 12, 9, 30, 5, 1⟩ ⟨2026, 10, 12, 9, 30, 5, 2⟩ [] []).result =
      [("status", JValue.str "success"),
       ("message", JValue.str
         "Analytics request saved successfully to analytics_request_20261012_093005.json"),
       ("file_path", JValue.str "analytics_request_20261012_093005.json"),
       ("summary", JValue.str "Request type: unknown, Requester: unknown")] ∧
    (save_analytics_request (Except.error "boom") (Except.ok ())
        ⟨2026, 10, 12, 9, 30, 5, 1⟩ ⟨2026, 10, 12, 9, 30, 5, 2⟩ [] []).result ≠
      [("status", JValue.str "error"),
       ("message", JValue.str "Failed to save request: boom")] := by
  constructor <;> decide

/-- C3 (amended): `save_analytics_request` never lets an exception
propagate — every call returns a result whose status is `"success"` or
`"error"` — and any exception raised inside persist's own try block, in
particular a failing file write, is converted to
`\x7bstatus: "error", message: "Failed to save request: <cause>"\x7d`
(with the filesystem left unchanged); exceptions during summarization are
caught inside the summarization step instead and do not produce this
result. -/
theorem save_no_uncaught_failure (gen : Except String String) (write : Except String Unit)
    (nowName nowMeta : DateTime) (fs : Fs) (rd : Dict) :
    (dictGet (save_analytics_request gen write nowName nowMeta fs rd).result "status" =
        some (.str "success") ∨
      dictGet (save_analytics_request gen write nowName nowMeta fs rd).result "status" =
        some (.str "error")) ∧
    (∀ e, write = .error e →
      save_analytics_request gen write nowName nowMeta fs rd =
        { result := [("status", .str "error"),
                     ("message", .str ("Failed to save request: " ++ e))],
          fs := fs, request_data := persistedRecord gen nowMeta rd }) := by
  constructor
  · cases write with
    | error e =>
      right
      rw [save_write_error_eq]
      rfl
    | ok u =>
      cases u
      cases h : fstringShortSummary (persistedRecord gen nowMeta rd) with
      | ok s =>
        left
        rw [save_ok_result gen nowName nowMeta fs rd s h]
        rfl
      | error e =>
        right
        rw [save_fstring_error_result gen nowName nowMeta fs rd e h]
        rfl
  · intro e he
    subst he
    exact save_write_error_eq gen e nowName nowMeta fs rd

/-- Witness for the amended C3: an unwritable target (permission denied)
yields the structured save-failure result and leaves the filesystem
unchanged. -/
theorem save_no_uncaught_failure_witness :
    save_analytics_request (Except.ok "GEN") (Except.error "Permission denied")
        ⟨2026, 10, 12, 9, 30, 5, 1⟩ ⟨2026, 10, 12, 9, 30, 5, 2⟩ [] [] =
      { result := [("status", JValue.str "error"),
                   ("message", JValue.str "Failed to save request: Permission denied")],
        fs := [],
        request_data := persistedRecord (Except.ok "GEN") ⟨2026, 10, 12, 9, 30, 5, 2⟩ [] } :=
  (save_no_uncaught_failure (Except.ok "GEN") (Except.error "Permission denied")
    ⟨2026, 10, 12, 9, 30, 5, 1⟩ ⟨2026, 10, 12, 9, 30, 5, 2⟩ [] []).2 "Permission denied" rfl

/-- C4: when the external text-generation call raises with cause `e`, the
summarization step returns `\x7bstatus: "error", message: "Failed to
generate summary: <e>"\x7d`; persist stores that error-shaped mapping
unconditionally under `request_summary` and continues to completion (the
file is written and the returned status is `"success"`). -/
theorem summarization_failure_stored (e : String) (nowName nowMeta : DateTime)
    (fs : Fs) (rd : Dict) (s : String)
    (hs : fstringShortSummary (persistedRecord (.error e) nowMeta rd) = .ok s) :
    summarize_analytics_request (.error e) rd =
      .obj [("status", .str "error"),
            ("message", .str ("Failed to generate summary: " ++ e))] ∧
    dictGet (persistedRecord (.error e) nowMeta rd) "request_summary" =
      some (.obj [("status", .str "error"),
                  ("message", .str ("Failed to generate summary: " ++ e))]) ∧
    dictGet (save_analytics_request (.error e) (.ok ()) nowName nowMeta fs rd).result
        "status" = some (.str "success") ∧
    fsRead (save_analytics_request (.error e) (.ok ()) nowName nowMeta fs rd).fs
        (persistFilename nowName) =
      some ⟨.obj (persistedRecord (.error e) nowMeta rd), 2, false, "utf-8", "w"⟩ := by
  refine ⟨rfl, persistedRecord_summary (.error e) nowMeta rd, ?_, ?_⟩
  · rw [save_ok_result (.error e) nowName nowMeta fs rd s hs]
    rfl
  · rw [save_ok_fs]
    exact fsRead_fsWrite_self _ _ _

/-- Witness for C4: with cause `"boom"` and an empty input record the
error object is stored as the summary and persist succeeds. -/
theorem summarization_failure_stored_witness :
    dictGet (persistedRecord (Except.error "boom") ⟨2026, 10, 12, 9, 30, 5, 2⟩ [])
        "request_summary" =
      some (JValue.obj [("status", JValue.str "error"),
        ("message", JValue.str "Failed to generate summary: boom")]) ∧
    dictGet (save_analytics_request (Except.error "boom") (Except.ok ())
        ⟨2026, 10, 12, 9, 30, 5, 1⟩ ⟨2026, 10, 12, 9, 30, 5, 2⟩ [] []).result "status" =
      some (JValue.str "success") := by
  have h := summarization_failure_stored "boom" ⟨2026, 10, 12, 9, 30, 5, 1⟩
    ⟨2026, 10, 12, 9, 30, 5, 2⟩ [] [] "Request type: unknown, Requester: unknown" (by decide)
  exact ⟨h.2.1, h.2.2.1⟩

/-- C5: the output filename is exactly
`analytics_request_<YYYYMMDD_HHMMSS>.json` derived from the clock reading
truncated to one-second resolution; two persist calls whose clock readings
fall within the same wall-clock second produce the identical filename, and
the second call's content silently overwrites the first file
(last-write-wins, no collision mitigation). -/
theorem save_filename_collision (t1 t2 m1 m2 : DateTime) (h : t1.sameSecond t2)
    (gen1 gen2 : Except String String) (fs : Fs) (rdA rdB : Dict) :
    persistFilename t1 = "analytics_request_" ++ t1.strftimeCompact ++ ".json" ∧
    persistFilename t1 = persistFilename t2 ∧
    fsRead (save_analytics_request gen1 (.ok ()) t1 m1 fs rdA).fs (persistFilename t1) =
      some ⟨.obj (persistedRecord gen1 m1 rdA), 2, false, "utf-8", "w"⟩ ∧
    fsRead (save_analytics_request gen2 (.ok ()) t2 m2
        (save_analytics_request gen1 (.ok ()) t1 m1 fs rdA).fs rdB).fs
        (persistFilename t1) =
      some ⟨.obj (persistedRecord gen2 m2 rdB), 2, false, "utf-8", "w"⟩ := by
  have hf : persistFilename t1 = persistFilename t2 := by
    unfold persistFilename
    rw [strftimeCompact_eq_of_sameSecond t1 t2 h]
  refine ⟨rfl, hf, ?_, ?_⟩
  · rw [save_ok_fs]
    exact fsRead_fsWrite_self _ _ _
  · rw [save_ok_fs gen2 t2 m2 _ rdB, hf]
    exact fsRead_fsWrite_self _ _ _

/-- Witness for C5: two persist calls with different payloads inside the
same wall-clock second; the shared file holds the second record. -/
theorem save_filename_collision_witness :
    persistFilename ⟨2026, 10, 12, 9, 30, 5, 100⟩ =
      persistFilename ⟨2026, 10, 12, 9, 30, 5, 900000⟩ ∧
    fsRead (save_analytics_request (Except.ok "B") (Except.ok ())
        ⟨2026, 10, 12, 9, 30, 5, 900000⟩ ⟨2026, 10, 12, 9, 30, 6, 0⟩
        (save_analytics_request (Except.ok "A") (Except.ok ())
          ⟨2026, 10, 12, 9, 30, 5, 100⟩ ⟨2026, 10, 12, 9, 30, 5, 500⟩ []
          [("payload", JValue.str "first")]).fs
        [("payload", JValue.str "second")]).fs
      (persistFilename ⟨2026, 10, 12, 9, 30, 5, 100⟩) =
      some ⟨JValue.obj (persistedRecord (Except.ok "B") ⟨2026, 10, 12, 9, 30, 6, 0⟩
        [("payload", JValue.str "second")]), 2, false, "utf-8", "w"⟩ := by
  have h := save_filename_collision ⟨2026, 10, 12, 9, 30, 5, 100⟩
    ⟨2026, 10, 12, 9, 30, 5, 900000⟩ ⟨2026, 10, 12, 9, 30, 5, 500⟩ ⟨2026, 10, 12, 9, 30, 6, 0⟩
    (by decide) (Except.ok "A") (Except.ok "B") [] [("payload", JValue.str "first")]
    [("payload", JValue.str "second")]
  exact ⟨h.2.1, h.2.2.2⟩

/-- C9: a successful persist call returns
`\x7bstatus, message, file_path, summary\x7d` where `summary` is the
short derived string `"Request type: <request_type>, Requester:
<basic_info.name>"`, each component falling back to `"unknown"` when its
key is missing, and persist still succeeds in that case. -/
theorem save_success_result_shape (gen : Except String String) (nowName nowMeta : DateTime)
    (fs : Fs) (rd : Dict) (s : String)
    (hs : fstringShortSummary (persistedRecord gen nowMeta rd) = .ok s) :
    (save_analytics_request gen (.ok ()) nowName nowMeta fs rd).result =
      [("status", .str "success"),
       ("message", .str ("Analytics request saved successfully to " ++ persistFilename nowName)),
       ("file_path", .str (persistFilename nowName)),
       ("summary", .str s)] ∧
    ∃ rt nm : String, s = "Request type: " ++ rt ++ ", Requester: " ++ nm ∧
      (∀ v, dictGet rd "request_type" = some v → rt = pyStr v) ∧
      (dictGet rd "request_type" = none → rt = "unknown") ∧
      (∀ kvs v, dictGet rd "basic_info" = some (.obj kvs) → dictGet kvs "name" = some v →
        nm = pyStr v) ∧
      (dictGet rd "basic_info" = none → nm = "unknown") ∧
      (∀ kvs, dictGet rd "basic_info" = some (.obj kvs) → dictGet kvs "name" = none →
        nm = "unknown") := by
  refine ⟨save_ok_result gen nowName nowMeta fs rd s hs, ?_⟩
  unfold fstringShortSummary at hs
  rw [persistedRecord_getD_ne gen nowMeta rd "request_type" (.str "unknown")
      (by decide) (by decide),
    persistedRecord_getD_ne gen nowMeta rd "basic_info" (.obj [])
      (by decide) (by decide)] at hs
  cases hbi : dictGetD rd "basic_info" (.obj []) with
  | obj kvs =>
    rw [hbi] at hs
    injection hs with hseq
    refine ⟨pyStr (dictGetD rd "request_type" (.str "unknown")),
      pyStr (dictGetD kvs "name" (.str "unknown")), hseq.symm, ?_, ?_, ?_, ?_, ?_⟩
    · intro v hv
      unfold dictGetD
      rw [hv]
      rfl
    · intro hv
      unfold dictGetD
      rw [hv]
      rfl
    · intro kvs' v hbv hnv
      have hb : dictGetD rd "basic_info" (.obj []) = .obj kvs' := by
        unfold dictGetD
        rw [hbv]
        rfl
      rw [hbi] at hb
      injection hb with hk
      subst hk
      unfold dictGetD
      rw [hnv]
      rfl
    · intro hb0
      have hb : dictGetD rd "basic_info" (.obj []) = .obj [] := by
        unfold dictGetD
        rw [hb0]
        rfl
      rw [hbi] at hb
      injection hb with hk
      subst hk
      rfl
    · intro kvs' hbv hnv
      have hb : dictGetD rd "basic_info" (.obj []) = .obj kvs' := by
        unfold dictGetD
        rw [hbv]
        rfl
      rw [hbi] at hb
      injection hb with hk
      subst hk
      unfold dictGetD
      rw [hnv]
      rfl
  | str a =>
    rw [hbi] at hs
    exact Except.noConfusion hs
  | num a =>
    rw [hbi] at hs
    exact Except.noConfusion hs
  | bool a =>
    rw [hbi] at hs
    exact Except.noConfusion hs
  | null =>
    rw [hbi] at hs
    exact Except.noConfusion hs
  | arr a =>
    rw [hbi] at hs
    exact Except.noConfusion hs

/-- Witness for C9: with both `request_type` and `basic_info` missing the
persist call still succeeds and both summary components fall back to
`"unknown"`. -/
theorem save_success_result_shape_witness :
    (save_analytics_request (Except.ok "GEN") (Except.ok ())
        ⟨2026, 10, 12, 9, 30, 5, 1⟩ ⟨2026, 10, 12, 9, 30, 5, 2⟩ [] []).result =
      [("status", JValue.str "success"),
       ("message", JValue.str
         ("Analytics request saved successfully to " ++
           persistFilename ⟨2026, 10, 12, 9, 30, 5, 1⟩)),
       ("file_path", JValue.str (persistFilename ⟨2026, 10, 12, 9, 30, 5, 1⟩)),
       ("summary", JValue.str "Request type: unknown, Requester: unknown")] := by
  have h := save_success_result_shape (Except.ok "GEN") ⟨2026, 10, 12, 9, 30, 5, 1⟩
    ⟨2026, 10, 12, 9, 30, 5, 2⟩ [] [] "Request type: unknown, Requester: unknown" (by decide)
  exact h.1

/-- C10: persist mutates its argument mapping (modelled by the
`request_data` field of the outcome): after the call the caller's mapping
holds the added `request_summary` and `metadata` keys, any prior entries
under those two keys are overwritten — the prior `metadata` value is
replaced entirely by `\x7bcreated_at, status\x7d` — and every other
supplied key keeps its value. -/
theorem save_mutates_argument (gen : Except String String) (write : Except String Unit)
    (nowName nowMeta : DateTime) (fs : Fs) (rd : Dict) :
    (save_analytics_request gen write nowName nowMeta fs rd).request_data =
      persistedRecord gen nowMeta rd ∧
    dictGet (persistedRecord gen nowMeta rd) "request_summary" =
      some (summarize_analytics_request gen rd) ∧
    dictGet (persistedRecord gen nowMeta rd) "metadata" = some (metaObj nowMeta) ∧
    (∀ k v, dictGet rd k = some v → k ≠ "request_summary" → k ≠ "metadata" →
      dictGet (persistedRecord gen nowMeta rd) k = some v) :=
  ⟨save_request_data_eq gen write nowName nowMeta fs rd,
   persistedRecord_summary gen nowMeta rd,
   persistedRecord_metadata gen nowMeta rd,
   fun k v hv h1 h2 => by
     rw [persistedRecord_get_ne gen nowMeta rd k h1 h2]
     exact hv⟩

/-- Witness for C10: a prior `metadata` entry with an extra sub-key is
replaced entirely, while an unrelated key keeps its value. -/
theorem save_mutates_argument_witness :
    (save_analytics_request (Except.ok "GEN") (Except.ok ())
        ⟨2026, 10, 12, 9, 30, 5, 1⟩ ⟨2026, 10, 12, 9, 30, 5, 2⟩ []
        [("metadata", JValue.obj [("created_at", JValue.str "old"),
            ("session_id", JValue.str "abc")]),
         ("x", JValue.str "y")]).request_data =
      persistedRecord (Except.ok "GEN") ⟨2026, 10, 12, 9, 30, 5, 2⟩
        [("metadata", JValue.obj [("created_at", JValue.str "old"),
            ("session_id", JValue.str "abc")]),
         ("x", JValue.str "y")] ∧
    dictGet (persistedRecord (Except.ok "GEN") ⟨2026, 10, 12, 9, 30, 5, 2⟩
        [("metadata", JValue.obj [("created_at", JValue.str "old"),
            ("session_id", JValue.str "abc")]),
         ("x", JValue.str "y")]) "metadata" =
      some (metaObj ⟨2026, 10, 12, 9, 30, 5, 2⟩) ∧
    dictGet (persistedRecord (Except.ok "GEN") ⟨2026, 10, 12, 9, 30, 5, 2⟩
        [("metadata", JValue.obj [("created_at", JValue.str "old"),
            ("session_id", JValue.str "abc")]),
         ("x", JValue.str "y")]) "x" =
      some (JValue.str "y") := by
  have h := save_mutates_argument (Except.ok "GEN") (Except.ok ())
    ⟨2026, 10, 12, 9, 30, 5, 1⟩ ⟨2026, 10, 12, 9, 30, 5, 2⟩ []
    [("metadata", JValue.obj [("created_at", JValue.str "old"),
        ("session_id", JValue.str "abc")]),
     ("x", JValue.str "y")]
  exact ⟨h.1, h.2.2.1, h.2.2.2 "x" (JValue.str "y") (by decide) (by decide) (by decide)⟩
